import Mathlib

/-
Verification of the GBS source service for OBS
(shallow embedding of src/obs_service_gbs/command.py).

Machine integers of the source are Python ints, modelled as Int/Nat.
Filesystem and collaborator effects (tempfile.mkdtemp, os.chown,
sanitize_uid_gid, fork_call + cmd_export, CachedRepo, write_treeish_meta,
os.makedirs, shutil.move, shutil.rmtree) are modelled by an environment
record fixing the outcome of each external call of one run, and an
explicit filesystem-observation state threaded through the control flow.
-/

namespace ObsServiceGbs

/- Exit codes: command.py lines 38-42. -/

def EXIT_OK : Int := 0

def EXIT_ERR_SERVICE : Int := 1

def EXIT_ERR_GBS_EXPORT : Int := 2

def EXIT_ERR_GBS_CRASH : Int := 3

/- errno value compared against err.errno in main (command.py line 236). -/

def EEXIST : Nat := 17

/- Template spec file for the error package: command.py lines 45-73,
   reproduced byte for byte. -/

def ERROR_PKG_SPEC : String := "\nName:           service-error\nVersion:        1\nRelease:        0\nLicense:        GPL-2.0+\nSummary:        Package indicating an export error in gbs source service\nSource0:        service-error\n\n%description\nThis is a dummy package created by obs-service-gbs that indicates that\nexporting the packaging files failed. This is a special hack to prevent the\ncreation of broken packages in case of service failures. This behaviour was\nimplicitly enabled with the \x27error-pkg\x27 parameter of the service.\n\n%build\ncat << EOF\n!!!!!!!!!!!!!!!!!!!!!!!!!!!!!!!!!!!!!!!!!!!!!!!!!!!!!!!!!!!!!!!!!!!!!!!!!!!!!!\n!!!\n!!!\n!!! OBS-SERVICE-GBS FAILED\n!!!\n!!!\n!!!!!!!!!!!!!!!!!!!!!!!!!!!!!!!!!!!!!!!!!!!!!!!!!!!!!!!!!!!!!!!!!!!!!!!!!!!!!!\n--- SERVICE ERROR LOG --------------------------------------------------------\n\x60sed s\x27/^/  /\x27 %\x7bSOURCE0\x7d\x60\n--- END OF SERVICE ERROR LOG -------------------------------------------------\nEOF\nexit 1\n"

/- integer_list (command.py lines 177-179):
   [int(val.strip()) for val in string.split(str1) if val]
   where str1 is a comma.  int() raising ValueError is modelled by none. -/

def pyIsSpace (c : Char) : Bool :=
  c = ' ' || c = '\t' || c = '\n' || c = '\r' || c = Char.ofNat 11 || c = Char.ofNat 12

/- str.strip() of Python: remove whitespace from both ends. -/

def pyStrip (s : String) : String :=
  String.mk (((s.toList.dropWhile pyIsSpace).reverse.dropWhile pyIsSpace).reverse)

/- Value of a non-empty all-digit character list, else none. -/

def digitsVal (l : List Char) : Option Nat :=
  if l.isEmpty then none
  else if l.all Char.isDigit then
    some (l.foldl (fun a c => a * 10 + (c.toNat - 48)) 0)
  else none

/- Python int(s) on a string: optional surrounding whitespace, optional
   sign, decimal digits; ValueError (none) otherwise. -/

def pyInt (s : String) : Option Int :=
  match ((s.toList.dropWhile pyIsSpace).reverse.dropWhile pyIsSpace).reverse with
  | '-' :: rest => (digitsVal rest).map (fun n => -(n : Int))
  | '+' :: rest => (digitsVal rest).map (fun n => (n : Int))
  | l => (digitsVal l).map (fun n => (n : Int))

/- Python str.split(sep) with a one-character separator: cut at every
   occurrence of the separator; no occurrence yields the whole string,
   so the empty string yields one empty token. -/

def splitCharsAux (sep : Char) : List Char → List Char → List (List Char)
  | [], acc => [acc.reverse]
  | c :: rest, acc =>
    if c = sep then acc.reverse :: splitCharsAux sep rest []
    else splitCharsAux sep rest (c :: acc)

def pySplit (sep : Char) (s : String) : List String :=
  (splitCharsAux sep s.toList []).map String.mk

/- The list comprehension of integer_list, evaluated left to right; the
   first ValueError aborts the whole call. -/

def intListLoop : List String → Option (List Int)
  | [] => some []
  | v :: rest =>
    match pyInt (pyStrip v) with
    | none => none
    | some n =>
      match intListLoop rest with
      | none => none
      | some l => some (n :: l)

def integer_list (s : String) : Option (List Int) :=
  intListLoop ((pySplit ',' s).filter (fun v => v ≠ ""))

/- Command line options registered by parse_args (command.py lines 186-203). -/

def parse_args_options : List String :=
  [("--url"), ("--outdir"), ("--revision"), ("--verbose"), ("-v"),
   ("--config"), ("--git-meta"), ("--error-pkg")]

/- Parsed arguments of one run (argparse Namespace, after parse_args). -/

structure Args where
  url : String
  outdir : String
  revision : String
  verbose : Option String
  git_meta : Option String
  error_pkg : List Int
deriving DecidableEq

/- The argparse Namespace handed to cmd_export (construct_gbs_args,
   command.py lines 84-101).  Every field the source sets to None is an
   Option that construct_gbs_args leaves none. -/

structure GbsArgs where
  outdir : String
  gitdir : String
  spec : Option String
  commit : Option String
  include_all : Option String
  source_rpm : Option String
  no_patch_export : Option String
  upstream_branch : Option String
  upstream_tag : Option String
  squash_patches_until : Option String
  packaging_dir : Option String
  debug : Option String
deriving DecidableEq

def construct_gbs_args (args : Args) (outdir gitdir : String) : GbsArgs :=
  { outdir := outdir
    gitdir := gitdir
    spec := none
    commit := if args.revision ≠ "" then some args.revision else none
    include_all := none
    source_rpm := none
    no_patch_export := none
    upstream_branch := none
    upstream_tag := none
    squash_patches_until := none
    packaging_dir := none
    debug := none }

/- Exceptions that can cross the functions of command.py: ServiceError
   (message, exit code) raised and caught by the source itself, and any
   other exception escaping every handler (os.chown raising OSError,
   os.listdir(tmpdir)[0] raising IndexError). -/

inductive PyExc where
  | serviceError (msg : String) (code : Int)
  | uncaught (typ : String)
deriving DecidableEq

/- Outcome of the one fork_call(uid, gid, cmd_export)(gbs_args) call
   (command.py line 150): successful child, GbpServiceError from
   fork_call itself, or GbpChildBTError reconstructing the child
   exception, whose typ field either is or is not a CmdError subclass. -/

inductive ForkBehavior where
  | ok
  | gbpServiceError (msg : String)
  | childBT (typIsCmdError : Bool) (val : String)
deriving DecidableEq

/- Outcome of os.makedirs(args.outdir) (command.py line 234). -/

inductive MakedirsResult where
  | ok
  | oserror (errno : Nat)
deriving DecidableEq

/- Outcomes of every external call made during one run. -/

structure Env where
  /- os.makedirs(args.outdir), line 234 -/
  makedirs : MakedirsResult
  /- CachedRepo + update_working_copy, lines 244-245: CachedRepoError
     message, or the resolved revision -/
  cacheResult : Except String String
  /- repo.repodir, line 146 -/
  gitdir : String
  /- tempfile.mkdtemp(dir=args.outdir), line 132: OSError message or ok -/
  mkdtempResult : Except String Unit
  /- the path of the created temporary directory -/
  tmpdirPath : String
  /- sanitize_uid_gid(...), line 139: GbpServiceError message or (uid, gid) -/
  sanitizeResult : Except String (Nat × Nat)
  /- os.chown(tmpdir, uid, gid), line 142 -/
  chownOk : Bool
  /- fork_call(uid, gid, cmd_export)(gbs_args), line 150 -/
  fork : ForkBehavior
  /- os.listdir(tmpdir) after a successful export, line 169 -/
  tmpdirListing : List String
  /- contents (name, bytes) of a subdirectory of tmpdir, line 170 -/
  filesOf : String → List (String × String)
  /- write_treeish_meta(...), line 256: GbpServiceError message or ok -/
  metaResult : Except String Unit
  /- full content of the accumulated log tempfile, lines 226-228 -/
  logContent : String

/- Filesystem observations of one run.  The output directory is a map
   from file name to content, as an association list. -/

structure FsState where
  tmpdirCreated : Nat
  tmpdirRemoved : Nat
  outdirFiles : List (String × String)
  crashTraceLogged : Bool
deriving DecidableEq

def initState : FsState := ⟨0, 0, [], false⟩

/- Writing (or moving onto) a file in the output directory replaces any
   same-named entry: shutil.move over os.rename overwrites an existing
   destination file, as do shutil.copy2 and open(...,w). -/

def writeFile (fs : List (String × String)) (f : String × String) : List (String × String) :=
  fs.filter (fun g => g.1 ≠ f.1) ++ [f]

def moveAll (fs : List (String × String)) (news : List (String × String)) : List (String × String) :=
  news.foldl writeFile fs

def lookupFile (fs : List (String × String)) (n : String) : Option String :=
  (fs.find? (fun g => g.1 = n)).map Prod.snd

/- try: ... finally: shutil.rmtree(tmpdir)  (command.py lines 145-175):
   whatever the body did, one removal of the tmpdir is recorded. -/

def finallyRmtree (r : Except PyExc Unit × FsState) : Except PyExc Unit × FsState :=
  (r.1, { r.2 with tmpdirRemoved := r.2.tmpdirRemoved + 1 })

/- Body of the try of lines 145-173: build gbs args, fork the export,
   classify its failure, on success move each file of the single
   subdirectory of tmpdir into args.outdir. -/

def gbsExportBody (_args : Args) (env : Env) (st : FsState) : Except PyExc Unit × FsState :=
  match env.fork with
  | .gbpServiceError e =>
    (.error (.serviceError (("Failed to run GBS thread: ") ++ e) EXIT_ERR_SERVICE), st)
  | .childBT typIsCmd v =>
    if typIsCmd then
      (.error (.serviceError (("GBS export failed: ") ++ v) EXIT_ERR_GBS_EXPORT), st)
    else
      (.error (.serviceError ("GBS crashed, export failed") EXIT_ERR_GBS_CRASH),
       { st with crashTraceLogged := true })
  | .ok =>
    match env.tmpdirListing with
    | [] => (.error (.uncaught ("IndexError")), st)
    | d :: _ =>
      (.ok (), { st with outdirFiles := moveAll st.outdirFiles (env.filesOf d) })

/- gbs_export after the tmpdir exists (command.py lines 137-175):
   sanitize_uid_gid, os.chown, then the guarded export.  Note that the
   rmtree finally-block only wraps the export itself: a sanitize or
   chown failure leaves the tmpdir in place. -/

def gbsAfterTmpdir (args : Args) (env : Env) (st : FsState) : Except PyExc Unit × FsState :=
  match env.sanitizeResult with
  | .error e => (.error (.serviceError e EXIT_ERR_SERVICE), st)
  | .ok _ =>
    if env.chownOk then
      finallyRmtree (gbsExportBody args env st)
    else
      (.error (.uncaught ("OSError")), st)

/- gbs_export (command.py lines 128-175). -/

def gbs_export (args : Args) (env : Env) (st : FsState) : Except PyExc Unit × FsState :=
  match env.mkdtempResult with
  | .error e =>
    (.error (.serviceError (("Failed to create tmpdir: ") ++ e) EXIT_ERR_SERVICE), st)
  | .ok _ =>
    gbsAfterTmpdir args env { st with tmpdirCreated := st.tmpdirCreated + 1 }

/- After gbs_export: optionally write_treeish_meta (command.py lines
   253-259), wrapping its GbpServiceError as ServiceError(str(err), 1). -/

def mainMeta (args : Args) (env : Env) (r : Except PyExc Unit × FsState) :
    Except PyExc Unit × FsState :=
  match r.1 with
  | .error e => (.error e, r.2)
  | .ok _ =>
    match args.git_meta with
    | none => (.ok (), r.2)
    | some _ =>
      match env.metaResult with
      | .ok _ => (.ok (), r.2)
      | .error e => (.error (.serviceError e EXIT_ERR_SERVICE), r.2)

/- The try-block of main (command.py lines 240-259): read_config is
   pure here, then CachedRepo/update_working_copy (CachedRepoError is
   wrapped as a ServiceError with code 1, line 248), then gbs_export
   with args.revision replaced by the resolved revision, then git-meta. -/

def mainBody (args : Args) (env : Env) (st : FsState) : Except PyExc Unit × FsState :=
  match env.cacheResult with
  | .error e => (.error (.serviceError (("RepoCache: ") ++ e) EXIT_ERR_SERVICE), st)
  | .ok rev => mainMeta args env (gbs_export { args with revision := rev } env st)

/- Result of one whole run of main. -/

inductive RunExit where
  | exit (code : Int)
  | uncaught (typ : String)
deriving DecidableEq

structure MainRes where
  code : RunExit
  fs : FsState
  errorPkgWritten : Bool
deriving DecidableEq

/- except ServiceError handler of main (command.py lines 260-270): when
   the carried exit code is in args.error_pkg, copy the accumulated log
   to outdir/service-error, write ERROR_PKG_SPEC to
   outdir/service-error.spec and return EXIT_OK; otherwise return the
   carried code.  Exceptions other than ServiceError are not caught. -/

def mainHandle (args : Args) (env : Env) (r : Except PyExc Unit × FsState) : MainRes :=
  match r.1 with
  | .ok _ => ⟨.exit EXIT_OK, r.2, false⟩
  | .error (.uncaught n) => ⟨.uncaught n, r.2, false⟩
  | .error (.serviceError _ c) =>
    if c ∈ args.error_pkg then
      let files := moveAll r.2.outdirFiles
        [(("service-error"), env.logContent), (("service-error.spec"), ERROR_PKG_SPEC)]
      ⟨.exit EXIT_OK, { r.2 with outdirFiles := files }, true⟩
    else ⟨.exit c, r.2, false⟩

def mainRun (args : Args) (env : Env) (st0 : FsState) : MainRes :=
  mainHandle args env (mainBody args env st0)

/- main (command.py lines 210-272).  outdir0 is the content the output
   directory would have if it already exists; os.makedirs failing with
   EEXIST falls through (line 236), any other OSError returns
   EXIT_ERR_SERVICE immediately (lines 237-238), before the try-block
   and its error-package handler. -/

def main (args : Args) (env : Env) (outdir0 : List (String × String)) : MainRes :=
  match env.makedirs with
  | .ok => mainRun args env { initState with outdirFiles := outdir0 }
  | .oserror e =>
    if e ≠ EEXIST then
      ⟨.exit EXIT_ERR_SERVICE, { initState with outdirFiles := outdir0 }, false⟩
    else
      mainRun args env { initState with outdirFiles := outdir0 }

/- ------------------------------------------------------------------ -/
/- Helper lemmas about the association-list filesystem.               -/
/- ------------------------------------------------------------------ -/

theorem find?_filter_ne (fs : List (String × String)) (m n : String) (h : n ≠ m) :
    (fs.filter (fun g => g.1 ≠ m)).find? (fun g => g.1 = n) =
      fs.find? (fun g => g.1 = n) := by
  induction fs with
  | nil => rfl
  | cons g gs ih =>
    by_cases h1 : g.1 = m
    case pos =>
      have hfil : (g :: gs).filter (fun g => g.1 ≠ m) = gs.filter (fun g => g.1 ≠ m) := by
        simp [List.filter_cons, h1]
      have h2 : ¬ g.1 = n := fun hn => h (hn ▸ h1)
      have hfind : (g :: gs).find? (fun g => g.1 = n) = gs.find? (fun g => g.1 = n) := by
        simp [List.find?_cons, h2]
      rw [hfil, hfind, ih]
    case neg =>
      have hfil : (g :: gs).filter (fun g => g.1 ≠ m) = g :: gs.filter (fun g => g.1 ≠ m) := by
        simp [List.filter_cons, h1]
      by_cases h2 : g.1 = n
      · have hh : ∀ l, (g :: l).find? (fun g => g.1 = n) = some g := by
          intro l
          simp [List.find?_cons, h2]
        rw [hfil, hh, hh]
      · have hh : ∀ l, (g :: l).find? (fun g => g.1 = n) = l.find? (fun g => g.1 = n) := by
          intro l
          simp [List.find?_cons, h2]
        rw [hfil, hh, hh, ih]

theorem lookupFile_writeFile_self (fs : List (String × String)) (f : String × String) :
    lookupFile (writeFile fs f) f.1 = some f.2 := by
  unfold lookupFile writeFile
  have h1 : (fs.filter (fun g => g.1 ≠ f.1)).find? (fun g => g.1 = f.1) = none := by
    rw [List.find?_eq_none]
    intro x hx
    have hx2 := (List.mem_filter.mp hx).2
    simp only [decide_not, Bool.not_eq_true', decide_eq_false_iff_not] at hx2
    simp [hx2]
  rw [List.find?_append, h1]
  simp [List.find?_cons]

theorem lookupFile_writeFile_ne (fs : List (String × String)) (f : String × String)
    (n : String) (h : n ≠ f.1) :
    lookupFile (writeFile fs f) n = lookupFile fs n := by
  unfold lookupFile writeFile
  rw [List.find?_append, find?_filter_ne fs f.1 n h]
  cases hf : fs.find? (fun g => g.1 = n) with
  | none => simp [List.find?_cons, Ne.symm h]
  | some g => simp

theorem lookupFile_moveAll_notmem (news : List (String × String))
    (fs : List (String × String)) (n : String) (h : ∀ f ∈ news, f.1 ≠ n) :
    lookupFile (moveAll fs news) n = lookupFile fs n := by
  induction news generalizing fs with
  | nil => rfl
  | cons f rest ih =>
    have hf : f.1 ≠ n := h f (by simp)
    have hrest : ∀ g ∈ rest, g.1 ≠ n := fun g hg => h g (by simp [hg])
    calc lookupFile (moveAll fs (f :: rest)) n
        = lookupFile (moveAll (writeFile fs f) rest) n := by rw [moveAll, List.foldl_cons]; rfl
      _ = lookupFile (writeFile fs f) n := ih (writeFile fs f) hrest
      _ = lookupFile fs n := lookupFile_writeFile_ne fs f n (Ne.symm hf)

theorem lookupFile_moveAll_mem (news : List (String × String))
    (fs : List (String × String)) (n c : String)
    (hnd : (news.map Prod.fst).Nodup) (hmem : (n, c) ∈ news) :
    lookupFile (moveAll fs news) n = some c := by
  induction news generalizing fs with
  | nil => cases hmem
  | cons f rest ih =>
    have hstep : moveAll fs (f :: rest) = moveAll (writeFile fs f) rest := by
      rw [moveAll, List.foldl_cons]; rfl
    rcases List.mem_cons.mp hmem with heq | hr
    · subst heq
      have hn1 : (n, c).1 ∉ rest.map Prod.fst := (List.nodup_cons.mp hnd).1
      have hnotin : ∀ g ∈ rest, g.1 ≠ n := by
        intro g hg hgn
        exact hn1 (List.mem_map.mpr ⟨g, hg, hgn⟩)
      rw [hstep, lookupFile_moveAll_notmem rest (writeFile fs (n, c)) n hnotin]
      exact lookupFile_writeFile_self fs (n, c)
    · rw [hstep]
      exact ih (writeFile fs f) (List.nodup_cons.mp hnd).2 hr

/- ------------------------------------------------------------------ -/
/- Helper lemmas tracking the scratch-directory counters.             -/
/- ------------------------------------------------------------------ -/

theorem gbsExportBody_tmpdir (args : Args) (env : Env) (st : FsState) :
    (gbsExportBody args env st).2.tmpdirCreated = st.tmpdirCreated ∧
    (gbsExportBody args env st).2.tmpdirRemoved = st.tmpdirRemoved := by
  unfold gbsExportBody
  rcases h : env.fork with _ | e | ⟨b, v⟩
  · rcases hl : env.tmpdirListing with _ | ⟨d, ds⟩ <;> simp [h, hl]
  · simp [h]
  · rcases b <;> simp [h]

theorem gbsAfterTmpdir_tmpdir (args : Args) (env : Env) (st : FsState) :
    (gbsAfterTmpdir args env st).2.tmpdirCreated = st.tmpdirCreated ∧
    ((gbsAfterTmpdir args env st).2.tmpdirRemoved = st.tmpdirRemoved ∨
     (gbsAfterTmpdir args env st).2.tmpdirRemoved = st.tmpdirRemoved + 1) := by
  unfold gbsAfterTmpdir finallyRmtree
  rcases h : env.sanitizeResult with e | p
  · simp [h]
  · rcases hc : env.chownOk <;>
      simp [h, hc, (gbsExportBody_tmpdir args env st).1, (gbsExportBody_tmpdir args env st).2]

theorem gbs_export_tmpdir (args : Args) (env : Env) (st : FsState) :
    ((gbs_export args env st).2.tmpdirCreated = st.tmpdirCreated ∨
     (gbs_export args env st).2.tmpdirCreated = st.tmpdirCreated + 1) ∧
    ((gbs_export args env st).2.tmpdirRemoved = st.tmpdirRemoved ∨
     (gbs_export args env st).2.tmpdirRemoved = st.tmpdirRemoved + 1) := by
  unfold gbs_export
  rcases h : env.mkdtempResult with e | u
  · simp [h]
  · have h2 := gbsAfterTmpdir_tmpdir args env { st with tmpdirCreated := st.tmpdirCreated + 1 }
    constructor
    · right
      simpa [h] using h2.1
    · simpa [h] using h2.2

theorem mainMeta_fs (args : Args) (env : Env) (r : Except PyExc Unit × FsState) :
    (mainMeta args env r).2 = r.2 := by
  unfold mainMeta
  rcases h : r.1 with e | u
  · simp [h]
  · rcases hm : args.git_meta with _ | m
    · simp [h, hm]
    · rcases hw : env.metaResult with e2 | u2 <;> simp [h, hm, hw]

theorem mainBody_tmpdir (args : Args) (env : Env) (st : FsState) :
    ((mainBody args env st).2.tmpdirCreated = st.tmpdirCreated ∨
     (mainBody args env st).2.tmpdirCreated = st.tmpdirCreated + 1) ∧
    ((mainBody args env st).2.tmpdirRemoved = st.tmpdirRemoved ∨
     (mainBody args env st).2.tmpdirRemoved = st.tmpdirRemoved + 1) := by
  unfold mainBody
  rcases h : env.cacheResult with e | rev
  · simp [h]
  · simp only [h]
    rw [mainMeta_fs]
    exact gbs_export_tmpdir { args with revision := rev } env st

theorem mainHandle_tmpdir (args : Args) (env : Env) (r : Except PyExc Unit × FsState) :
    (mainHandle args env r).fs.tmpdirCreated = r.2.tmpdirCreated ∧
    (mainHandle args env r).fs.tmpdirRemoved = r.2.tmpdirRemoved := by
  unfold mainHandle
  rcases h : r.1 with e | u
  · rcases e with ⟨m, c⟩ | t
    · by_cases hc : c ∈ args.error_pkg <;> simp [h, hc]
    · simp [h]
  · simp [h]

/- When the output directory could be ensured (created, or already there),
   main proceeds into its try-block continuation. -/

theorem main_eq_mainRun (args : Args) (env : Env) (outdir0 : List (String × String))
    (hmd : env.makedirs = .ok ∨ env.makedirs = .oserror EEXIST) :
    main args env outdir0 = mainRun args env { initState with outdirFiles := outdir0 } := by
  rcases hmd with h | h <;> simp [main, h]

theorem mainRun_created_le_one (args : Args) (env : Env) (st0 : FsState)
    (h0 : st0.tmpdirCreated = 0) :
    (mainRun args env st0).fs.tmpdirCreated ≤ 1 := by
  unfold mainRun
  rw [(mainHandle_tmpdir args env (mainBody args env st0)).1]
  rcases (mainBody_tmpdir args env st0).1 with h | h <;> rw [h, h0]
  all_goals omega

/- Baseline one-run environment used to instantiate the theorems: every
   external call succeeds and the export produces a spec and a tarball. -/

def baseEnv : Env :=
  { makedirs := .ok
    cacheResult := .ok ("abc123")
    gitdir := ("/cache/repo")
    mkdtempResult := .ok ()
    tmpdirPath := ("/out/tmpXYZ")
    sanitizeResult := .ok (0, 0)
    chownOk := true
    fork := .ok
    tmpdirListing := [("pkgdir")]
    filesOf := fun _ =>
      [(("test-package.spec"), ("spec-content")), (("test-package-0.1.tar.bz2"), ("tar-content"))]
    metaResult := .ok ()
    logContent := ("log lines") }

def baseArgs : Args :=
  { url := ("git://host/repo.git")
    outdir := ("/out")
    revision := ("HEAD")
    verbose := none
    git_meta := none
    error_pkg := [] }

/- ------------------------------------------------------------------ -/
/- Claim theorems.                                                    -/
/- ------------------------------------------------------------------ -/

/-- C1: once the run has reached the isolated export call (tmpdir made,
identity resolved, ownership changed), a failure of that call is classified
exactly as the source does it: a GbpChildBTError whose carried type is a
CmdError subclass raises ServiceError with EXIT_ERR_GBS_EXPORT = 2; a
GbpChildBTError carrying any other type raises ServiceError with
EXIT_ERR_GBS_CRASH = 3 after logging the diagnostic traceback; a
GbpServiceError from fork_call itself raises ServiceError with
EXIT_ERR_SERVICE = 1. -/
theorem gbs_export_failure_classification (args : Args) (env : Env) (st : FsState)
    (u g : Nat)
    (hmk : env.mkdtempResult = .ok ())
    (hsan : env.sanitizeResult = .ok (u, g))
    (hch : env.chownOk = true) :
    (∀ v, env.fork = .childBT true v →
      (gbs_export args env st).1 =
        .error (.serviceError (("GBS export failed: ") ++ v) EXIT_ERR_GBS_EXPORT) ∧
      EXIT_ERR_GBS_EXPORT = 2) ∧
    (∀ v, env.fork = .childBT false v →
      (gbs_export args env st).1 =
        .error (.serviceError ("GBS crashed, export failed") EXIT_ERR_GBS_CRASH) ∧
      (gbs_export args env st).2.crashTraceLogged = true ∧
      EXIT_ERR_GBS_CRASH = 3) ∧
    (∀ e, env.fork = .gbpServiceError e →
      (gbs_export args env st).1 =
        .error (.serviceError (("Failed to run GBS thread: ") ++ e) EXIT_ERR_SERVICE) ∧
      EXIT_ERR_SERVICE = 1) := by
  refine ⟨?_, ?_, ?_⟩ <;> intro v hf <;>
    simp [gbs_export, gbsAfterTmpdir, gbsExportBody, finallyRmtree, hmk, hsan, hch, hf,
          EXIT_ERR_GBS_EXPORT, EXIT_ERR_GBS_CRASH, EXIT_ERR_SERVICE]

theorem gbs_export_failure_classification_witness :
    (gbs_export baseArgs { baseEnv with fork := .childBT true ("no spec file") } initState).1 =
      .error (.serviceError ("GBS export failed: no spec file") 2) := by
  have h := gbs_export_failure_classification baseArgs
    { baseEnv with fork := .childBT true ("no spec file") } initState 0 0 rfl rfl rfl
  have h2 := (h.1 ("no spec file") rfl)
  rw [h2.2] at h2
  exact h2.1

/-- C4 counterexample: in a run where identity resolution fails with an
unknown user, the run is indeed a SetupFailure with exit code 1, but the
scratch directory has already been created — refuting the claim that
identity resolution (step 1) precedes scratch-directory creation (step 2)
and that no scratch directory ever exists on that failure. -/
theorem identity_failure_after_scratch_creation :
    (main baseArgs { baseEnv with sanitizeResult := .error ("no such user") } []).code =
      .exit 1 ∧
    (main baseArgs { baseEnv with sanitizeResult := .error ("no such user") } []).fs.tmpdirCreated
      = 1 := by
  constructor
  · decide
  · decide

/-- C4 amended: gbs_export creates the scratch directory first and resolves
the identity configuration second: whenever mkdtemp succeeds and
sanitize_uid_gid fails, the call raises ServiceError with the sanitize error
and EXIT_ERR_SERVICE = 1 (a SetupFailure), and at that point the scratch
directory has already been created (and, the rmtree guard not being
entered, not removed). -/
theorem identity_resolution_after_tmpdir (args : Args) (env : Env) (st : FsState) (e : String)
    (hmk : env.mkdtempResult = .ok ())
    (hsan : env.sanitizeResult = .error e) :
    (gbs_export args env st).1 = .error (.serviceError e EXIT_ERR_SERVICE) ∧
    (gbs_export args env st).2.tmpdirCreated = st.tmpdirCreated + 1 ∧
    (gbs_export args env st).2.tmpdirRemoved = st.tmpdirRemoved ∧
    EXIT_ERR_SERVICE = 1 := by
  simp [gbs_export, gbsAfterTmpdir, hmk, hsan, EXIT_ERR_SERVICE]

theorem identity_resolution_after_tmpdir_witness :
    (gbs_export baseArgs { baseEnv with sanitizeResult := .error ("no such user") } initState).1 =
      .error (.serviceError ("no such user") EXIT_ERR_SERVICE) ∧
    (gbs_export baseArgs { baseEnv with sanitizeResult := .error ("no such user") }
        initState).2.tmpdirCreated = 1 := by
  have h := identity_resolution_after_tmpdir baseArgs
    { baseEnv with sanitizeResult := .error ("no such user") } initState ("no such user")
    rfl rfl
  exact ⟨h.1, h.2.1⟩

/-- C7: when main ensures the output directory exists, os.makedirs failing
with errno EEXIST is not an error — the run proceeds exactly as after a
successful creation — while any other OSError terminates the run
immediately with EXIT_ERR_SERVICE = 1 and an untouched filesystem. -/
theorem outdir_creation_handling (args : Args) (env : Env)
    (outdir0 : List (String × String)) :
    (env.makedirs = .oserror EEXIST →
      main args env outdir0 = mainRun args env { initState with outdirFiles := outdir0 }) ∧
    (env.makedirs = .ok →
      main args env outdir0 = mainRun args env { initState with outdirFiles := outdir0 }) ∧
    (∀ e, env.makedirs = .oserror e → e ≠ EEXIST →
      main args env outdir0 =
        ⟨.exit EXIT_ERR_SERVICE, { initState with outdirFiles := outdir0 }, false⟩ ∧
      EXIT_ERR_SERVICE = 1) := by
  refine ⟨?_, ?_, ?_⟩
  · intro h
    simp [main, h]
  · intro h
    simp [main, h]
  · intro e h hne
    simp [main, h, hne, EXIT_ERR_SERVICE]

theorem outdir_creation_handling_witness :
    main baseArgs { baseEnv with makedirs := .oserror EEXIST } [] =
      mainRun baseArgs { baseEnv with makedirs := .oserror EEXIST } initState ∧
    main baseArgs { baseEnv with makedirs := .oserror 13 } [] =
      ⟨.exit EXIT_ERR_SERVICE, initState, false⟩ := by
  have h1 := (outdir_creation_handling baseArgs
    { baseEnv with makedirs := .oserror EEXIST } []).1 rfl
  have h2 := ((outdir_creation_handling baseArgs
    { baseEnv with makedirs := .oserror 13 } []).2.2 13 rfl (by decide)).1
  constructor
  · simpa using h1
  · simpa using h2

/-- C8 counterexample: the process boundary accepts no spec-file selection:
the option table of parse_args contains no --spec option, and for a concrete
request the namespace handed to the export tool carries spec = none, so the
caller cannot supply a packaging-descriptor name. -/
theorem no_spec_file_in_request :
    ("--spec") ∉ parse_args_options ∧
    (construct_gbs_args baseArgs ("/out/tmpXYZ") ("/cache/repo")).spec = none := by
  constructor
  · decide
  · rfl

/-- C8 amended: the export request carries no explicit spec-file name at all:
parse_args registers no such option, and construct_gbs_args passes
spec = none to the export tool for every request, so the descriptor used is
always derived by the tool, never selected by the caller. -/
theorem spec_never_supplied (args : Args) (outdir gitdir : String) :
    (construct_gbs_args args outdir gitdir).spec = none ∧
    ("--spec") ∉ parse_args_options := by
  exact ⟨rfl, by decide⟩

/-- C2 counterexample: a failing run whose output-directory creation dies
with a non-EEXIST OSError has mapped exit code 1; with the allowlist [1] the
claim requires the error package and exit 0, but the run returns 1 directly
and writes no error-package file, because the makedirs handler returns
before the allowlist is ever consulted. -/
theorem error_pkg_bypassed_on_outdir_failure :
    (1 : Int) ∈ ({ baseArgs with error_pkg := [1] } : Args).error_pkg ∧
    main { baseArgs with error_pkg := [1] } { baseEnv with makedirs := .oserror 13 } [] =
      ⟨.exit 1, initState, false⟩ := by
  constructor
  · decide
  · decide

/-- C2 amended: for every failing run whose classified failure is raised
inside the try-block of main (repository cache, export, or metadata write)
and carried as ServiceError (msg, c): if c is in the caller-supplied
allowlist, the accumulated log content is written verbatim to the file
service-error in the output directory, the fixed literal ERROR_PKG_SPEC is
written to service-error.spec beside it, and the run exits 0; if c is not
in the allowlist, the run exits with c unchanged and no error-package file
is written.  (A failure to create the output directory itself exits 1
before this handler and bypasses the allowlist.) -/
theorem error_pkg_fallback (args : Args) (env : Env) (outdir0 : List (String × String))
    (msg : String) (c : Int) (st1 : FsState)
    (hmd : env.makedirs = .ok ∨ env.makedirs = .oserror EEXIST)
    (hrun : mainBody args env { initState with outdirFiles := outdir0 } =
      (.error (.serviceError msg c), st1)) :
    (c ∈ args.error_pkg →
      (main args env outdir0).code = .exit 0 ∧
      (main args env outdir0).errorPkgWritten = true ∧
      lookupFile (main args env outdir0).fs.outdirFiles ("service-error") =
        some env.logContent ∧
      lookupFile (main args env outdir0).fs.outdirFiles ("service-error.spec") =
        some ERROR_PKG_SPEC) ∧
    (c ∉ args.error_pkg →
      main args env outdir0 = ⟨.exit c, st1, false⟩) := by
  have hmain : main args env outdir0 =
      mainHandle args env (mainBody args env { initState with outdirFiles := outdir0 }) := by
    rcases hmd with h | h <;> simp [main, h, mainRun]
  rw [hmain, hrun]
  constructor
  · intro hc
    refine ⟨by simp [mainHandle, hc, EXIT_OK], by simp [mainHandle, hc], ?_, ?_⟩
    · have hl := lookupFile_moveAll_mem
        [(("service-error"), env.logContent), (("service-error.spec"), ERROR_PKG_SPEC)]
        st1.outdirFiles ("service-error") env.logContent
        (show (([("service-error"), ("service-error.spec")] : List String)).Nodup by decide)
        (by simp)
      simpa [mainHandle, hc] using hl
    · have hl := lookupFile_moveAll_mem
        [(("service-error"), env.logContent), (("service-error.spec"), ERROR_PKG_SPEC)]
        st1.outdirFiles ("service-error.spec") ERROR_PKG_SPEC
        (show (([("service-error"), ("service-error.spec")] : List String)).Nodup by decide)
        (by simp)
      simpa [mainHandle, hc] using hl
  · intro hc
    simp [mainHandle, hc]

theorem error_pkg_fallback_witness :
    (main { baseArgs with error_pkg := [1, 2, 3] }
        { baseEnv with cacheResult := .error ("bad revision") } []).code = .exit 0 ∧
    lookupFile (main { baseArgs with error_pkg := [1, 2, 3] }
        { baseEnv with cacheResult := .error ("bad revision") } []).fs.outdirFiles
      ("service-error") = some ("log lines") := by
  have h := (error_pkg_fallback { baseArgs with error_pkg := [1, 2, 3] }
    { baseEnv with cacheResult := .error ("bad revision") } []
    (("RepoCache: ") ++ ("bad revision")) 1 initState (Or.inl rfl) rfl).1 (by decide)
  exact ⟨h.1, h.2.2.1⟩

/-- C3 counterexample: a failure raised after the scratch directory was
created — identity resolution failing — terminates the run with the scratch
directory created once but never removed, refuting removal on every path
that leaves the export step. -/
theorem tmpdir_leak_on_identity_failure :
    (main baseArgs { baseEnv with sanitizeResult := .error ("unknown group") } []).fs.tmpdirCreated
      = 1 ∧
    (main baseArgs { baseEnv with sanitizeResult := .error ("unknown group") } []).fs.tmpdirRemoved
      = 0 := by
  constructor
  · decide
  · decide

/-- C3 amended: every run creates at most one scratch directory, and none at
all when output-directory creation fails; whenever control reaches the
guarded export region (tmpdir made, identity resolved, ownership changed)
the scratch directory is removed exactly once whatever the export call does;
but a failure between creation and the guarded region — identity resolution
or ownership change — leaves the scratch directory unremoved. -/
theorem tmpdir_lifecycle (args : Args) (env : Env) (outdir0 : List (String × String)) :
    (main args env outdir0).fs.tmpdirCreated ≤ 1 ∧
    (∀ e, env.makedirs = .oserror e → e ≠ EEXIST →
      (main args env outdir0).fs.tmpdirCreated = 0) ∧
    (∀ st u g, env.mkdtempResult = .ok () → env.sanitizeResult = .ok (u, g) →
      env.chownOk = true →
      (gbs_export args env st).2.tmpdirCreated = st.tmpdirCreated + 1 ∧
      (gbs_export args env st).2.tmpdirRemoved = st.tmpdirRemoved + 1) := by
  refine ⟨?_, ?_, ?_⟩
  · rcases hmd : env.makedirs with _ | e
    · rw [main_eq_mainRun args env outdir0 (Or.inl hmd)]
      exact mainRun_created_le_one args env _ rfl
    · by_cases he : e = EEXIST
      · subst he
        rw [main_eq_mainRun args env outdir0 (Or.inr hmd)]
        exact mainRun_created_le_one args env _ rfl
      · simp [main, hmd, he, initState]
  · intro e hmd hne
    simp [main, hmd, hne, initState]
  · intro st u g hmk hsan hch
    have hb := gbsExportBody_tmpdir args env { st with tmpdirCreated := st.tmpdirCreated + 1 }
    constructor
    · simp [gbs_export, gbsAfterTmpdir, hmk, hsan, hch, finallyRmtree, hb.1]
    · simp [gbs_export, gbsAfterTmpdir, hmk, hsan, hch, finallyRmtree, hb.2]

theorem tmpdir_lifecycle_witness :
    (gbs_export baseArgs baseEnv initState).2.tmpdirCreated = 1 ∧
    (gbs_export baseArgs baseEnv initState).2.tmpdirRemoved = 1 := by
  have h := (tmpdir_lifecycle baseArgs baseEnv []).2.2 initState 0 0 rfl rfl rfl
  simpa [initState] using h

/-- C5 counterexample: a run whose requested revision cannot be resolved
(the repository cache raises CachedRepoError) exits with code 1, not the
claimed ExpectedFailure code 2. -/
theorem invalid_revision_exit_code :
    (main baseArgs { baseEnv with cacheResult := .error ("revision foobar not found") } []).code
      = .exit 1 ∧
    RunExit.exit 1 ≠ RunExit.exit 2 := by
  constructor
  · decide
  · decide

/-- C5 amended: a run whose requested revision cannot be resolved raises
CachedRepoError, wrapped as a ServiceError with EXIT_ERR_SERVICE = 1 — a
service error, not the export-failure code 2 — and with an allowlist not
containing 1 the run exits 1 with the initially empty output directory
still empty (no partial artifacts). -/
theorem invalid_revision_service_error (args : Args) (env : Env) (e : String)
    (hc : env.cacheResult = .error e)
    (hmd : env.makedirs = .ok ∨ env.makedirs = .oserror EEXIST)
    (hal : (1 : Int) ∉ args.error_pkg) :
    (main args env []).code = .exit 1 ∧
    (main args env []).fs.outdirFiles = [] := by
  have hmain : main args env [] =
      mainHandle args env (mainBody args env { initState with outdirFiles := [] }) := by
    rcases hmd with h | h <;> simp [main, h, mainRun]
  have hbody : mainBody args env { initState with outdirFiles := [] } =
      (.error (.serviceError (("RepoCache: ") ++ e) EXIT_ERR_SERVICE),
       { initState with outdirFiles := [] }) := by
    simp [mainBody, hc]
  have h1 : EXIT_ERR_SERVICE = 1 := rfl
  rw [hmain, hbody, h1]
  simp [mainHandle, hal, initState]

theorem invalid_revision_service_error_witness :
    (main baseArgs { baseEnv with cacheResult := .error ("bad rev") } []).code = .exit 1 ∧
    (main baseArgs { baseEnv with cacheResult := .error ("bad rev") } []).fs.outdirFiles
      = [] := by
  exact invalid_revision_service_error baseArgs
    { baseEnv with cacheResult := .error ("bad rev") } ("bad rev") rfl (Or.inl rfl)
    (by decide)

/-- C6 counterexample: gbs_export reports no list of moved paths to its
caller: two successful runs moving different file sets return the very same
bare success value, so the caller-visible result of the exporter carries no
information about the moved paths. -/
theorem export_reports_no_moved_paths :
    (gbs_export baseArgs baseEnv initState).1 =
      (gbs_export baseArgs
        { baseEnv with filesOf := fun _ => [(("only.spec"), ("x"))] } initState).1 ∧
    (gbs_export baseArgs baseEnv initState).2.outdirFiles ≠
      (gbs_export baseArgs
        { baseEnv with filesOf := fun _ => [(("only.spec"), ("x"))] }
        initState).2.outdirFiles := by
  constructor
  · rfl
  · decide

/-- C6 amended: on a successful export every file of the single immediate
subdirectory of the scratch directory is moved into the output directory —
a file of the same name already there is overwritten, files with other
names are untouched — but the exporter returns only a bare success value to
its caller and reports no list of moved paths. -/
theorem export_moves_all_files (args : Args) (env : Env) (st : FsState) (d : String)
    (u g : Nat)
    (hmk : env.mkdtempResult = .ok ())
    (hsan : env.sanitizeResult = .ok (u, g))
    (hch : env.chownOk = true)
    (hfk : env.fork = .ok)
    (hls : env.tmpdirListing = [d]) :
    (gbs_export args env st).1 = .ok () ∧
    (((env.filesOf d).map Prod.fst).Nodup →
      ∀ n c, (n, c) ∈ env.filesOf d →
        lookupFile (gbs_export args env st).2.outdirFiles n = some c) ∧
    (∀ n, (∀ f ∈ env.filesOf d, f.1 ≠ n) →
      lookupFile (gbs_export args env st).2.outdirFiles n =
        lookupFile st.outdirFiles n) := by
  have hfs : (gbs_export args env st).2.outdirFiles =
      moveAll st.outdirFiles (env.filesOf d) := by
    simp [gbs_export, gbsAfterTmpdir, gbsExportBody, finallyRmtree, hmk, hsan, hch, hfk, hls]
  refine ⟨?_, ?_, ?_⟩
  · simp [gbs_export, gbsAfterTmpdir, gbsExportBody, finallyRmtree, hmk, hsan, hch, hfk, hls]
  · intro hnd n c hm
    rw [hfs]
    exact lookupFile_moveAll_mem _ _ n c hnd hm
  · intro n hno
    rw [hfs]
    exact lookupFile_moveAll_notmem _ _ n hno

theorem export_moves_all_files_witness :
    (gbs_export baseArgs baseEnv initState).1 = .ok () ∧
    lookupFile (gbs_export baseArgs baseEnv initState).2.outdirFiles ("test-package.spec") =
      some ("spec-content") := by
  have h := export_moves_all_files baseArgs baseEnv initState ("pkgdir") 0 0
    rfl rfl rfl rfl rfl
  exact ⟨h.1, h.2.1 (by decide) ("test-package.spec") ("spec-content") (by decide)⟩

/- For claim C9: totality of the comprehension over a list of parseable
   tokens. -/

theorem intListLoop_eq (l : List String)
    (h : ∀ t ∈ l, (pyInt (pyStrip t)).isSome) :
    intListLoop l = some (l.map (fun t => (pyInt (pyStrip t)).getD 0)) := by
  induction l with
  | nil => rfl
  | cons v rest ih =>
    obtain ⟨n, hn⟩ := Option.isSome_iff_exists.mp (h v (by simp))
    simp [intListLoop, hn, ih (fun t ht => h t (by simp [ht]))]

/-- C9: for every input string each of whose comma-separated tokens is
either empty or a decimal integer token optionally surrounded by
whitespace, integer_list returns exactly the list of the integer values of
the non-empty tokens in their original order; in particular the empty
string yields the empty list. -/
theorem integer_list_spec (s : String)
    (h : ∀ t ∈ pySplit ',' s, t = "" ∨ (pyInt (pyStrip t)).isSome) :
    integer_list s =
      some (((pySplit ',' s).filter (fun v => v ≠ "")).map
        (fun t => (pyInt (pyStrip t)).getD 0)) ∧
    integer_list ("") = some [] := by
  constructor
  · unfold integer_list
    apply intListLoop_eq
    intro t ht
    have hmem := List.mem_filter.mp ht
    have ht2 : t ≠ "" := by simpa using hmem.2
    rcases h t hmem.1 with he | hs
    · exact absurd he ht2
    · exact hs
  · rfl

theorem integer_list_spec_witness :
    integer_list (" 1, 23 ,,-4") = some [1, 23, -4] := by
  have h := (integer_list_spec (" 1, 23 ,,-4") (by decide)).1
  rw [h]
  decide

/-- C10: a failing run can leave fully exported artifacts in the output
directory: in this run the export succeeds and its artifacts are moved into
the output directory, then the requested metadata write fails; the run
exits 1 (the allowlist being empty) while both exported artifacts are still
present — failure of the run does not mean the output directory is empty or
restored. -/
theorem meta_failure_keeps_artifacts :
    (main { baseArgs with git_meta := some ("_git_meta") }
        { baseEnv with metaResult := .error ("refusing to overwrite") } []).code = .exit 1 ∧
    lookupFile (main { baseArgs with git_meta := some ("_git_meta") }
        { baseEnv with metaResult := .error ("refusing to overwrite") } []).fs.outdirFiles
      ("test-package.spec") = some ("spec-content") ∧
    lookupFile (main { baseArgs with git_meta := some ("_git_meta") }
        { baseEnv with metaResult := .error ("refusing to overwrite") } []).fs.outdirFiles
      ("test-package-0.1.tar.bz2") = some ("tar-content") := by
  refine ⟨?_, ?_, ?_⟩ <;> decide

end ObsServiceGbs
